import Mathlib

/-!
Verification of the `great_expectations` profiling subset: a shallow embedding of
`great_expectations/datasource/batch_kwargs_generator/databricks_batch_kwargs_generator.py`
and `great_expectations/profile/basic_suite_builder_profiler.py`, together with theorems
about the behaviour of the embedded operations.

Python conventions are made explicit: dictionaries of keyword-style configuration become
records of `Option`-valued fields (`none` = key absent), Python truthiness is modelled per
value shape, numbers are exact rationals, raised exceptions become the `Except` monad.
-/

/-! ### Python-style values used by the configuration layer -/

/-- A Python value sitting under a configuration key that normally holds a list of
strings: the code also tolerates `False` and `None` there. -/
inductive PyListVal where
  | pyFalse : PyListVal
  | pyNone : PyListVal
  | pyList (xs : List String) : PyListVal
deriving DecidableEq

/-- Python truthiness of such a value: `False`, `None` and `[]` are falsy, a
non-empty list is truthy. -/
def PyListVal.truthy : PyListVal → Bool
  | .pyFalse => false
  | .pyNone => false
  | .pyList [] => false
  | .pyList (_ :: _) => true

/-- Iterating over such a value: only lists carry elements (the call sites guard
iteration behind truthiness, so `False`/`None` are never actually iterated). -/
def PyListVal.toList : PyListVal → List String
  | .pyFalse => []
  | .pyNone => []
  | .pyList xs => xs

/-- The Python test `value in [False, None, []]` used by the profiler to normalise
degenerate configuration values. -/
def PyListVal.isEmptyFalsy : PyListVal → Bool
  | .pyFalse => true
  | .pyNone => true
  | .pyList [] => true
  | .pyList (_ :: _) => false

/-- The normalisation `if value in [False, None, []]: value = None` applied to
`included_expectations`: the result is Python `None` or the original list. -/
def PyListVal.normalizeOpt (v : PyListVal) : Option (List String) :=
  if v.isEmptyFalsy then none else some v.toList

/-- Back-conversion used when a normalised (`Option`-valued) Python object is passed on
to a helper that expects a Python value: `none` is Python `None`. -/
def PyListVal.ofOpt : Option (List String) → PyListVal
  | none => .pyNone
  | some xs => .pyList xs

/-- Python truthiness of an optional string-valued keyword argument (`kwargs.get(k)`):
an absent key yields `None` (falsy) and the empty string is falsy. -/
def pyStrTruthy : Option String → Bool
  | none => false
  | some s => s ≠ ""

/-! ### DatabricksTableBatchKwargsGenerator
(embedding of `databricks_batch_kwargs_generator.py`) -/

/-- The slice of a Spark session the generator consults: `show tables in <database>`
yields rows whose `tableName` field we keep. External collaborator, held abstractly. -/
structure SparkSession where
  showTables : String → List String

/-- `DatabricksTableBatchKwargsGenerator`: after `__init__`, it holds the target
database name and either a Spark session or `None` (when obtaining one failed). -/
structure DatabricksTableBatchKwargsGenerator where
  database : String
  spark : Option SparkSession

/-- Result shape of `get_available_data_asset_names`: a dict with a `names` key holding
`(table_name, "table")` pairs. -/
structure AssetNames where
  names : List (String × String)
deriving DecidableEq

/-- `get_available_data_asset_names` (lines 28-34): warn and return `{"names": []}` when
no Spark session is available, otherwise list the tables of the configured database. -/
def DatabricksTableBatchKwargsGenerator.get_available_data_asset_names
    (g : DatabricksTableBatchKwargsGenerator) : AssetNames :=
  match g.spark with
  | none => { names := [] }
  | some s => { names := (s.showTables g.database).map (fun t => (t, "table")) }

/-- The keyword arguments `_get_iterator` inspects: `kwargs.get('partition')` and
`kwargs.get('date_field')`; `none` models an absent key. -/
structure GetIteratorKwargs where
  partition : Option String := none
  date_field : Option String := none
deriving DecidableEq

/-- A batch-kwargs dictionary `{"query": ...}` produced by `_get_iterator`. -/
structure BatchKwargs where
  query : String
deriving DecidableEq

/-- Errors raised by the embedded code. -/
inductive PErr where
  | profilerError (msg : String) : PErr
  | genericError (msg : String) : PErr
  | typeError : PErr
  | overflowError : PErr
  | assertionError (msg : String) : PErr
deriving DecidableEq

/-- `_get_iterator` (lines 36-46): build `select * from <database>.<asset>`, append a
`where <date_field> = "<partition>"` filter when a truthy partition is requested
(raising when no truthy `date_field` accompanies it), and return the singleton
iterator over the query dict. -/
def DatabricksTableBatchKwargsGenerator.get_iterator
    (g : DatabricksTableBatchKwargsGenerator) (generator_asset : String)
    (kwargs : GetIteratorKwargs) : Except PErr (List BatchKwargs) :=
  let query := "select * from " ++ g.database ++ "." ++ generator_asset
  if pyStrTruthy kwargs.partition then
    if ¬ pyStrTruthy kwargs.date_field then
      .error (.genericError "Must specify date_field when using partition.")
    else
      .ok [{ query := query ++ " where " ++ kwargs.date_field.getD "" ++ " = \"" ++
              kwargs.partition.getD "" ++ "\"" }]
  else
    .ok [{ query := query }]

/-! ### Theorems for the Databricks generator claims -/

/-- C5: for every generator whose Spark session is unavailable (`spark is None`),
`get_available_data_asset_names` does not raise and returns `{"names": []}`. -/
theorem get_available_data_asset_names_empty_without_spark
    (g : DatabricksTableBatchKwargsGenerator) (h : g.spark = none) :
    g.get_available_data_asset_names = { names := [] } := by
  unfold DatabricksTableBatchKwargsGenerator.get_available_data_asset_names
  rw [h]

/-- Witness for C5 at a concrete generator with no Spark session. -/
theorem get_available_data_asset_names_empty_without_spark_witness :
    DatabricksTableBatchKwargsGenerator.get_available_data_asset_names
      { database := "default", spark := none } = { names := [] } :=
  get_available_data_asset_names_empty_without_spark
    { database := "default", spark := none } rfl

/-- C4, counterexample: supplying the `partition` keyword with a falsy value (here the
empty string) and no `date_field` does NOT raise: `_get_iterator` returns the plain
unfiltered query, because the code tests `kwargs.get('partition')` for truthiness,
not for key presence. -/
theorem get_iterator_supplied_falsy_partition_does_not_raise :
    ({ partition := some "", date_field := none } : GetIteratorKwargs).partition ≠ none ∧
    ({ partition := some "", date_field := none } : GetIteratorKwargs).date_field = none ∧
    DatabricksTableBatchKwargsGenerator.get_iterator
      { database := "default", spark := none } "foo"
      { partition := some "", date_field := none } =
      Except.ok [{ query := "select * from default.foo" }] :=
  ⟨by decide, rfl, rfl⟩

/-- C4 (amended): whenever the `partition` keyword argument carries a truthy value and
no truthy `date_field` accompanies it (in particular when `date_field` is absent),
`_get_iterator` raises `Exception('Must specify date_field when using partition.')`. -/
theorem get_iterator_truthy_partition_without_date_field_raises
    (g : DatabricksTableBatchKwargsGenerator) (generator_asset : String)
    (kwargs : GetIteratorKwargs)
    (hp : pyStrTruthy kwargs.partition = true)
    (hd : pyStrTruthy kwargs.date_field = false) :
    g.get_iterator generator_asset kwargs =
      .error (.genericError "Must specify date_field when using partition.") := by
  unfold DatabricksTableBatchKwargsGenerator.get_iterator
  rw [hp, hd]
  simp

/-- Witness for the amended C4 at a concrete truthy partition with `date_field` absent. -/
theorem get_iterator_truthy_partition_without_date_field_raises_witness :
    DatabricksTableBatchKwargsGenerator.get_iterator
      { database := "default", spark := none } "foo"
      { partition := some "2024-01-01", date_field := none } =
      .error (.genericError "Must specify date_field when using partition.") :=
  get_iterator_truthy_partition_without_date_field_raises
    { database := "default", spark := none } "foo"
    { partition := some "2024-01-01", date_field := none } (by decide) rfl

/-- C6: with truthy `date_field` F and truthy `partition` P the iterator holds exactly
the one dict `{"query": 'select * from D.T where F = "P"'}`; with no partition
requested it holds exactly the one dict `{"query": 'select * from D.T'}`. -/
theorem get_iterator_query_construction
    (g : DatabricksTableBatchKwargsGenerator) (asset F P : String)
    (kwargs : GetIteratorKwargs)
    (hF : F ≠ "") (hP : P ≠ "") (hnone : pyStrTruthy kwargs.partition = false) :
    g.get_iterator asset { partition := some P, date_field := some F } =
      Except.ok [{ query := "select * from " ++ g.database ++ "." ++ asset ++
        " where " ++ F ++ " = \"" ++ P ++ "\"" }] ∧
    g.get_iterator asset kwargs =
      Except.ok [{ query := "select * from " ++ g.database ++ "." ++ asset }] := by
  constructor
  · unfold DatabricksTableBatchKwargsGenerator.get_iterator
    simp [pyStrTruthy, hF, hP]
  · unfold DatabricksTableBatchKwargsGenerator.get_iterator
    rw [hnone]
    simp

/-- Witness for C6 at concrete database, table, date field and partition values. -/
theorem get_iterator_query_construction_witness :
    DatabricksTableBatchKwargsGenerator.get_iterator
      { database := "db", spark := none } "t"
      { partition := some "p", date_field := some "f" } =
      Except.ok [{ query := "select * from db.t where f = \"p\"" }] ∧
    DatabricksTableBatchKwargsGenerator.get_iterator
      { database := "db", spark := none } "t"
      { partition := none, date_field := none } =
      Except.ok [{ query := "select * from db.t" }] :=
  get_iterator_query_construction { database := "db", spark := none } "t" "f" "p"
    { partition := none, date_field := none } (by decide) (by decide) rfl

/-! ### BasicSuiteBuilderProfiler data model
(embedding of `basic_suite_builder_profiler.py`; the external tabular-dataset
abstraction it drives is modelled from the spec) -/

/-- Modelled from the spec: `ProfilerCardinality` from `great_expectations/profile/base.py`
(not under `src/`), the coarse distinctness bucket of a column ("two-valued, few, many,
unique"), with the members the profiler branches on. -/
inductive ProfilerCardinality where
  | NONE | ONE | TWO | VERY_FEW | FEW | MANY | VERY_MANY | UNIQUE
deriving DecidableEq

/-- Modelled from the spec: `ProfilerDataType` from `great_expectations/profile/base.py`
(not under `src/`), the coarse column type classification the profiler branches on. -/
inductive ProfilerDataType where
  | INT | FLOAT | STRING | BOOLEAN | DATETIME | UNKNOWN
deriving DecidableEq

/-- An observed aggregate value returned by the dataset for a column (the
`result["observed_value"]` of a min/max/mean/median probe): a number, the float `nan`,
a datetime, a string holding a datetime, or `None`.  Datetimes are whole days from the
proleptic-Gregorian epoch; for a string value we carry the datetime `dateutil.parser.parse`
would produce for it (that external parser is abstracted as already applied). -/
inductive ObsVal where
  | num (q : ℚ) : ObsVal
  | nan : ObsVal
  | dtv (days : ℤ) : ObsVal
  | strv (days : ℤ) : ObsVal
  | noneV : ObsVal
deriving DecidableEq

/-- `_is_nan` (lines 607-611): `np.isnan` succeeds on numbers (true exactly for `nan`)
and raises `TypeError` on non-numbers, which the helper catches and turns into `False`. -/
def _is_nan : ObsVal → Bool
  | .nan => true
  | _ => false

/-- Modelled from the spec: the categorical partition object built by
`build_categorical_partition_object` from `great_expectations/dataset/util.py`
(not under `src/`); the profiler passes it through opaquely. -/
structure CategoricalPartition where
  values : List String
  weights : List ℚ
deriving DecidableEq

/-- `datetime.datetime.min` as days from the epoch (year 1, January 1). -/
def datetimeMinDays : ℤ := 0

/-- `datetime.datetime.max` as days from the epoch (year 9999, December 31). -/
def datetimeMaxDays : ℤ := 3652058

/-- The per-column aggregate answers of the external dataset abstraction, modelled from
the spec ("framework-provided aggregate queries (min, max, mean, quantiles, distinct
counts)"): whatever each probing expectation call would observe for the column. -/
structure ColumnStats where
  cardinality : ProfilerCardinality := .NONE
  ctype : ProfilerDataType := .UNKNOWN
  not_null_success : Bool := true
  unexpected_percent : ℚ := 0
  distinct_values : List String := []
  partition_object : CategoricalPartition := { values := [], weights := [] }
  observed_min : ObsVal := .noneV
  observed_max : ObsVal := .noneV
  observed_mean : ObsVal := .noneV
  observed_median : ObsVal := .noneV
  quantile_exception : Bool := false
  observed_quantiles : List ℚ := []
  observed_quantile_values : List ℚ := []
deriving DecidableEq

/-- A stored expectation: its type name plus the union of the keyword arguments the
profiler ever passes (absent kwargs are `none`; the runtime-only directives
`result_format` and `catch_exceptions` are not part of the stored assertion). -/
structure Expectation where
  expectation_type : String
  column : Option String := none
  min_value : Option ℚ := none
  max_value : Option ℚ := none
  mostly : Option ℚ := none
  value_set : Option (List String) := none
  threshold : Option ℚ := none
  partition_object : Option CategoricalPartition := none
  quantiles : Option (List ℚ) := none
  value_ranges : Option (List (Option ℚ × Option ℚ)) := none
  value : Option ℕ := none
  column_list : Option (List String) := none
  dt_min_value : Option ℤ := none
  dt_max_value : Option ℤ := none
  parse_strings_as_datetimes : Option Bool := none
deriving DecidableEq

/-- Modelled from the spec: an expectation suite is "a named collection of expectations
plus metadata"; we keep the expectations plus the per-column description metadata and
the optional notes the profiler writes. -/
structure ExpectationSuite where
  expectations : List Expectation
  meta_columns : List (String × String) := []
  meta_notes : Option String := none
deriving DecidableEq

/-- Modelled from the spec: the external tabular-dataset abstraction (table/column
introspection, expectation storage, interactive vs. deferred evaluation toggle).
Static introspection data and aggregate answers are fields; the expectation store and
configuration flags are threaded explicitly through every mutating call. -/
structure Dataset where
  table_columns : List String
  available_expectation_types : List String
  row_count : ℕ
  column_stats : String → ColumnStats
  suite_expectations : List Expectation := []
  interactive_evaluation : Bool := true
  default_catch_exceptions : Bool := true

/-- `dataset.get_table_columns()`. -/
def Dataset.get_table_columns (ds : Dataset) : List String := ds.table_columns

/-- `dataset.list_available_expectation_types()`. -/
def Dataset.list_available_expectation_types (ds : Dataset) : List String :=
  ds.available_expectation_types

/-- Modelled from the spec: storing an expectation replaces any existing expectation
with the same expectation type and column before appending the new one (so re-issuing a
probe with concrete bounds overwrites the unbounded probe). -/
def Dataset.append_expectation (ds : Dataset) (e : Expectation) : Dataset :=
  { ds with suite_expectations :=
      (ds.suite_expectations.filter (fun x =>
        ¬ (x.expectation_type = e.expectation_type ∧ x.column = e.column))) ++ [e] }

/-- `dataset.remove_expectation(expectation_type=t)`: drop the stored expectations of
the given type (no column criterion). -/
def Dataset.remove_expectation_type (ds : Dataset) (t : String) : Dataset :=
  { ds with suite_expectations :=
      ds.suite_expectations.filter (fun x => ¬ x.expectation_type = t) }

/-- `dataset.remove_expectation(expectation_type=t, column=c)`: drop the stored
expectations with the given type and column. -/
def Dataset.remove_expectation_type_col (ds : Dataset) (t : String) (c : Option String) :
    Dataset :=
  { ds with suite_expectations :=
      ds.suite_expectations.filter (fun x => ¬ (x.expectation_type = t ∧ x.column = c)) }

/-- `dataset.remove_expectation(expectation_type=e.type, expectation_kwargs=e.kwargs,
column=..., remove_multiple_matches=True)`: drop every stored expectation equal to `e`. -/
def Dataset.remove_expectation_exact (ds : Dataset) (e : Expectation) : Dataset :=
  { ds with suite_expectations := ds.suite_expectations.filter (fun x => ¬ x = e) }

/-- `dataset.set_config_value("interactive_evaluation", b)`. -/
def Dataset.set_interactive_evaluation (ds : Dataset) (b : Bool) : Dataset :=
  { ds with interactive_evaluation := b }

/-- `dataset.set_default_expectation_argument("catch_exceptions", b)`. -/
def Dataset.set_default_catch_exceptions (ds : Dataset) (b : Bool) : Dataset :=
  { ds with default_catch_exceptions := b }

/-- `dataset.get_expectation_suite(...)`: the currently stored expectations wrapped in a
fresh suite (the profiler overwrites the column metadata afterwards). -/
def Dataset.get_expectation_suite (ds : Dataset) : ExpectationSuite :=
  { expectations := ds.suite_expectations }

/-- Modelled from the spec: `build_categorical_partition_object(dataset, column)` from
`great_expectations/dataset/util.py` (not under `src/`) computes the column's
categorical partition from the dataset. -/
def build_categorical_partition_object (ds : Dataset) (column : String) :
    CategoricalPartition :=
  (ds.column_stats column).partition_object

/-! ### Column probing with caching -/

/-- One `column_cache` entry: the probed type and cardinality, each possibly absent. -/
structure CacheEntry where
  ctype : Option ProfilerDataType := none
  cardinality : Option ProfilerCardinality := none
deriving DecidableEq

/-- The `column_cache` dictionary: column name to cache entry. -/
abbrev ColumnCache := List (String × CacheEntry)

/-- `cache.get(column_name)` collapsed with the `if not column_cache_entry: entry = {}`
dance of the source: a missing (or empty, which Python treats as falsy) entry behaves
like a fresh empty entry. -/
def cacheGet (cache : ColumnCache) (column_name : String) : CacheEntry :=
  match cache.lookup column_name with
  | some e => e
  | none => {}

/-- `cache[column_name] = entry`. -/
def cacheSet (cache : ColumnCache) (column_name : String) (e : CacheEntry) : ColumnCache :=
  (column_name, e) :: cache.filter (fun p => p.1 ≠ column_name)

/-- Modelled from the spec: `BasicDatasetProfilerBase._get_column_type` (from
`great_expectations/profile/basic_dataset_profiler.py`, not under `src/`) probes the
column by issuing a type-list expectation against the dataset and returns the dataset's
coarse type classification for it. -/
def _get_column_type (ds : Dataset) (column_name : String) : ProfilerDataType × Dataset :=
  ((ds.column_stats column_name).ctype,
   ds.append_expectation
     { expectation_type := "expect_column_values_to_be_in_type_list",
       column := some column_name })

/-- Modelled from the spec: `BasicDatasetProfilerBase._get_column_cardinality` (not under
`src/`) probes the column by issuing unique-count and unique-proportion expectations and
returns the dataset's cardinality bucket for it. -/
def _get_column_cardinality (ds : Dataset) (column_name : String) :
    ProfilerCardinality × Dataset :=
  ((ds.column_stats column_name).cardinality,
   (ds.append_expectation
     { expectation_type := "expect_column_unique_value_count_to_be_between",
       column := some column_name }).append_expectation
     { expectation_type := "expect_column_proportion_of_unique_values_to_be_between",
       column := some column_name })

/-- `_get_column_type_with_caching` (lines 92-108): reuse a cached type; on a miss,
probe the type, cache it, remove the probe expectation and re-enable interactive
evaluation. -/
def _get_column_type_with_caching (ds : Dataset) (column_name : String)
    (cache : ColumnCache) : ProfilerDataType × Dataset × ColumnCache :=
  let entry := cacheGet cache column_name
  match entry.ctype with
  | some column_type => (column_type, ds, cache)
  | none =>
    let (column_type, ds) := _get_column_type ds column_name
    let cache := cacheSet cache column_name { entry with ctype := some column_type }
    let ds := ds.remove_expectation_type "expect_column_values_to_be_in_type_list"
    let ds := ds.set_interactive_evaluation true
    (column_type, ds, cache)

/-- `_get_column_cardinality_with_caching` (lines 110-129): reuse a cached cardinality;
on a miss, probe it, cache it, remove the two probe expectations and re-enable
interactive evaluation. -/
def _get_column_cardinality_with_caching (ds : Dataset) (column_name : String)
    (cache : ColumnCache) : ProfilerCardinality × Dataset × ColumnCache :=
  let entry := cacheGet cache column_name
  match entry.cardinality with
  | some column_cardinality => (column_cardinality, ds, cache)
  | none =>
    let (column_cardinality, ds) := _get_column_cardinality ds column_name
    let cache := cacheSet cache column_name
      { entry with cardinality := some column_cardinality }
    let ds := ds.remove_expectation_type "expect_column_unique_value_count_to_be_between"
    let ds := ds.remove_expectation_type
      "expect_column_proportion_of_unique_values_to_be_between"
    let ds := ds.set_interactive_evaluation true
    (column_cardinality, ds, cache)

/-! ### Per-column expectation creation -/

/-- `_create_non_nullity_expectations` (lines 154-160): issue a not-null expectation;
when it fails, re-issue it with a `mostly` tolerance derived from the observed
unexpected percentage. -/
def _create_non_nullity_expectations (ds : Dataset) (column : String) : Dataset :=
  let st := ds.column_stats column
  let ds := ds.append_expectation
    { expectation_type := "expect_column_values_to_not_be_null", column := some column }
  if ¬ st.not_null_success then
    let unexpected_percent := st.unexpected_percent
    let mostly_value := max (0.001 : ℚ) ((100 - unexpected_percent - 10) / 100)
    ds.append_expectation
      { expectation_type := "expect_column_values_to_not_be_null",
        column := some column, mostly := some mostly_value }
  else ds

/-- `_create_expectations_for_low_card_column` (lines 131-152): non-nullity, the
observed distinct-value set, and (for TWO/VERY_FEW cardinality) a KL-divergence bound
against the categorical partition. -/
def _create_expectations_for_low_card_column (ds : Dataset) (column : String)
    (column_cache : ColumnCache) : Dataset × ColumnCache :=
  let ds := _create_non_nullity_expectations ds column
  let value_set := (ds.column_stats column).distinct_values
  let ds := ds.append_expectation
    { expectation_type := "expect_column_distinct_values_to_be_in_set",
      column := some column, value_set := none }
  let ds := ds.append_expectation
    { expectation_type := "expect_column_distinct_values_to_be_in_set",
      column := some column, value_set := some value_set }
  let (card, ds, column_cache) := _get_column_cardinality_with_caching ds column column_cache
  if card ∈ [ProfilerCardinality.TWO, ProfilerCardinality.VERY_FEW] then
    let partition_object := build_categorical_partition_object ds column
    (ds.append_expectation
      { expectation_type := "expect_column_kl_divergence_to_be_less_than",
        column := some column, partition_object := some partition_object,
        threshold := some (0.6 : ℚ) }, column_cache)
  else (ds, column_cache)

/-- The arithmetic `observed - 1` / `observed + 1` on an observed aggregate: defined on
numbers; on a datetime, a string or `None`, Python raises `TypeError`.  The callers
skip `nan` beforehand (`nan ± 1` would silently stay `nan`, but is unreachable). -/
def ObsVal.asNum : ObsVal → Except PErr ℚ
  | .num q => .ok q
  | _ => .error .typeError

/-- `_create_expectations_for_numeric_column` (lines 162-249): non-nullity, then for
each of min/max/mean/median observe the aggregate and, unless it is `nan`, emit the
range check `[observed - 1, observed + 1]`; finally observe the five standard quantiles
and, unless that probe errored, emit per-quantile value ranges `[v - 1, v + 1]`. -/
def _create_expectations_for_numeric_column (ds : Dataset) (column : String) :
    Except PErr Dataset := do
  let ds := _create_non_nullity_expectations ds column
  let st := ds.column_stats column
  let ds := ds.append_expectation
    { expectation_type := "expect_column_min_to_be_between", column := some column }
  let ds ← (if ¬ _is_nan st.observed_min then do
      let m ← st.observed_min.asNum
      pure (ds.append_expectation
        { expectation_type := "expect_column_min_to_be_between", column := some column,
          min_value := some (m - 1), max_value := some (m + 1) })
    else pure ds)
  let ds := ds.append_expectation
    { expectation_type := "expect_column_max_to_be_between", column := some column }
  let ds ← (if ¬ _is_nan st.observed_max then do
      let m ← st.observed_max.asNum
      pure (ds.append_expectation
        { expectation_type := "expect_column_max_to_be_between", column := some column,
          min_value := some (m - 1), max_value := some (m + 1) })
    else pure ds)
  let ds := ds.append_expectation
    { expectation_type := "expect_column_mean_to_be_between", column := some column }
  let ds ← (if ¬ _is_nan st.observed_mean then do
      let m ← st.observed_mean.asNum
      pure (ds.append_expectation
        { expectation_type := "expect_column_mean_to_be_between", column := some column,
          min_value := some (m - 1), max_value := some (m + 1) })
    else pure ds)
  let ds := ds.append_expectation
    { expectation_type := "expect_column_median_to_be_between", column := some column }
  let ds ← (if ¬ _is_nan st.observed_median then do
      let m ← st.observed_median.asNum
      pure (ds.append_expectation
        { expectation_type := "expect_column_median_to_be_between", column := some column,
          min_value := some (m - 1), max_value := some (m + 1) })
    else pure ds)
  let ds := ds.append_expectation
    { expectation_type := "expect_column_quantile_values_to_be_between",
      column := some column,
      quantiles := some [(0.05 : ℚ), 0.25, 0.5, 0.75, 0.95],
      value_ranges := some [(none, none), (none, none), (none, none), (none, none),
        (none, none)] }
  if st.quantile_exception then
    pure ds
  else
    let ds := ds.set_interactive_evaluation false
    let ds := ds.append_expectation
      { expectation_type := "expect_column_quantile_values_to_be_between",
        column := some column,
        quantiles := some st.observed_quantiles,
        value_ranges := some (st.observed_quantile_values.map
          (fun v => (some (v - 1), some (v + 1)))) }
    pure (ds.set_interactive_evaluation true)

/-- `_create_expectations_for_string_column` (lines 251-254): non-nullity plus a
value-length lower bound of 1. -/
def _create_expectations_for_string_column (ds : Dataset) (column : String) : Dataset :=
  let ds := _create_non_nullity_expectations ds column
  ds.append_expectation
    { expectation_type := "expect_column_value_lengths_to_be_between",
      column := some column, min_value := some 1 }

/-- The `min_value + timedelta(days=-365)` step of the datetime column path (lines
352-361), under its `try/except`: on a datetime, an out-of-range result raises
`OverflowError`, caught and replaced by `datetime.min`; on a string, the `TypeError`
handler parses the string first and shifts it, with any overflow escaping uncaught; on
any other non-`None` value the `TypeError` raised inside the handler escapes. -/
def dtShiftBack (v : ObsVal) : Except PErr ℤ :=
  match v with
  | .dtv t => .ok (if t - 365 < datetimeMinDays then datetimeMinDays else t - 365)
  | .strv t =>
    if t - 365 < datetimeMinDays then .error .overflowError else .ok (t - 365)
  | _ => .error .typeError

/-- The `max_value + timedelta(days=365)` step (lines 363-375), symmetrically clamping
at `datetime.max` for datetimes and escaping on string overflow. -/
def dtShiftForward (v : ObsVal) : Except PErr ℤ :=
  match v with
  | .dtv t => .ok (if datetimeMaxDays < t + 365 then datetimeMaxDays else t + 365)
  | .strv t =>
    if datetimeMaxDays < t + 365 then .error .overflowError else .ok (t + 365)
  | _ => .error .typeError

/-- `_create_expectations_for_datetime_column` (lines 344-380): non-nullity; observe the
column min and max, and for each non-`None` observation drop the probe expectation and
widen the observation by a year; finally, when either bound exists, emit a values-range
expectation over the widened bounds. -/
def _create_expectations_for_datetime_column (ds : Dataset) (column : String) :
    Except PErr Dataset := do
  let ds := _create_non_nullity_expectations ds column
  let st := ds.column_stats column
  let ds := ds.append_expectation
    { expectation_type := "expect_column_min_to_be_between", column := some column }
  let (min_value, ds) ← (match st.observed_min with
    | .noneV => pure ((none : Option ℤ), ds)
    | v => do
      let ds := ds.remove_expectation_type_col "expect_column_min_to_be_between"
        (some column)
      let t ← dtShiftBack v
      pure (some t, ds))
  let ds := ds.append_expectation
    { expectation_type := "expect_column_max_to_be_between", column := some column }
  let (max_value, ds) ← (match st.observed_max with
    | .noneV => pure ((none : Option ℤ), ds)
    | v => do
      let ds := ds.remove_expectation_type_col "expect_column_max_to_be_between"
        (some column)
      let t ← dtShiftForward v
      pure (some t, ds))
  if min_value.isSome || max_value.isSome then
    pure (ds.append_expectation
      { expectation_type := "expect_column_values_to_be_between", column := some column,
        dt_min_value := min_value, dt_max_value := max_value,
        parse_strings_as_datetimes := some true })
  else pure ds

/-! ### Demo-mode column selection -/

/-- The `profiled_columns` bookkeeping dictionary of `_demo_profile`. -/
structure ProfiledColumns where
  numeric : List String := []
  low_card : List String := []
  string : List String := []
  datetime : List String := []
deriving DecidableEq

/-- `_find_next_low_card_column` (lines 256-273): first not-yet-profiled column of
TWO/VERY_FEW/FEW cardinality, with the probing side effects of skipped columns kept. -/
def _find_next_low_card_column (ds : Dataset) (columns : List String)
    (profiled_columns : ProfiledColumns) (column_cache : ColumnCache) :
    Option String × Dataset × ColumnCache :=
  match columns with
  | [] => (none, ds, column_cache)
  | column :: rest =>
    if column ∈ profiled_columns.low_card then
      _find_next_low_card_column ds rest profiled_columns column_cache
    else
      let (cardinality, ds, column_cache) :=
        _get_column_cardinality_with_caching ds column column_cache
      if cardinality ∈ [ProfilerCardinality.TWO, ProfilerCardinality.VERY_FEW,
          ProfilerCardinality.FEW] then
        (some column, ds, column_cache)
      else
        _find_next_low_card_column ds rest profiled_columns column_cache

/-- The Python test `column.lower().strip().find("_id") > -1`. -/
def containsUnderscoreId (s : String) : Bool := (s.splitOn "_id").length > 1

/-- `_find_next_numeric_column` (lines 275-300): first not-yet-profiled, non-id-looking
column of MANY/VERY_MANY/UNIQUE cardinality and INT/FLOAT type. -/
def _find_next_numeric_column (ds : Dataset) (columns : List String)
    (profiled_columns : ProfiledColumns) (column_cache : ColumnCache) :
    Option String × Dataset × ColumnCache :=
  match columns with
  | [] => (none, ds, column_cache)
  | column :: rest =>
    if column ∈ profiled_columns.numeric then
      _find_next_numeric_column ds rest profiled_columns column_cache
    else if column.toLower.trim = "id" || containsUnderscoreId column.toLower.trim then
      _find_next_numeric_column ds rest profiled_columns column_cache
    else
      let (cardinality, ds, column_cache) :=
        _get_column_cardinality_with_caching ds column column_cache
      let (ctype, ds, column_cache) := _get_column_type_with_caching ds column column_cache
      if cardinality ∈ [ProfilerCardinality.MANY, ProfilerCardinality.VERY_MANY,
          ProfilerCardinality.UNIQUE] ∧
          ctype ∈ [ProfilerDataType.INT, ProfilerDataType.FLOAT] then
        (some column, ds, column_cache)
      else
        _find_next_numeric_column ds rest profiled_columns column_cache

/-- `_find_next_string_column` (lines 302-320): first not-yet-profiled column of
MANY/VERY_MANY/UNIQUE cardinality and STRING/UNKNOWN type. -/
def _find_next_string_column (ds : Dataset) (columns : List String)
    (profiled_columns : ProfiledColumns) (column_cache : ColumnCache) :
    Option String × Dataset × ColumnCache :=
  match columns with
  | [] => (none, ds, column_cache)
  | column :: rest =>
    if column ∈ profiled_columns.string then
      _find_next_string_column ds rest profiled_columns column_cache
    else
      let (cardinality, ds, column_cache) :=
        _get_column_cardinality_with_caching ds column column_cache
      let (ctype, ds, column_cache) := _get_column_type_with_caching ds column column_cache
      if cardinality ∈ [ProfilerCardinality.MANY, ProfilerCardinality.VERY_MANY,
          ProfilerCardinality.UNIQUE] ∧
          ctype ∈ [ProfilerDataType.STRING, ProfilerDataType.UNKNOWN] then
        (some column, ds, column_cache)
      else
        _find_next_string_column ds rest profiled_columns column_cache

/-- `_find_next_datetime_column` (lines 322-342): first not-yet-profiled column of
MANY/VERY_MANY/UNIQUE cardinality and DATETIME type. -/
def _find_next_datetime_column (ds : Dataset) (columns : List String)
    (profiled_columns : ProfiledColumns) (column_cache : ColumnCache) :
    Option String × Dataset × ColumnCache :=
  match columns with
  | [] => (none, ds, column_cache)
  | column :: rest =>
    if column ∈ profiled_columns.datetime then
      _find_next_datetime_column ds rest profiled_columns column_cache
    else
      let (cardinality, ds, column_cache) :=
        _get_column_cardinality_with_caching ds column column_cache
      let (ctype, ds, column_cache) := _get_column_type_with_caching ds column column_cache
      if cardinality ∈ [ProfilerCardinality.MANY, ProfilerCardinality.VERY_MANY,
          ProfilerCardinality.UNIQUE] ∧ ctype = ProfilerDataType.DATETIME then
        (some column, ds, column_cache)
      else
        _find_next_datetime_column ds rest profiled_columns column_cache

/-! ### Table-level expectations and metadata -/

/-- Python `int()` on a rational: truncation toward zero. -/
def pyInt (q : ℚ) : ℤ := if 0 ≤ q then ⌊q⌋ else ⌈q⌉

/-- `_build_table_row_count_expectation` (lines 555-566): assert the tolerance is
non-negative, observe the row count, and emit a row-count range of
`[max(0, int(n * (1 - tolerance))), int(n * (1 + tolerance))]`.  All call sites use the
default `tolerance=0.1`. -/
def _build_table_row_count_expectation (ds : Dataset) (tolerance : ℚ) :
    Except PErr Dataset :=
  if tolerance < 0 then .error (.assertionError "Tolerance must be greater than zero")
  else
    let value := ds.row_count
    let ds := ds.append_expectation
      { expectation_type := "expect_table_row_count_to_be_between", min_value := some 0 }
    let min_value : ℤ := max 0 (pyInt ((value : ℚ) * (1 - tolerance)))
    let max_value : ℤ := pyInt ((value : ℚ) * (1 + tolerance))
    .ok (ds.append_expectation
      { expectation_type := "expect_table_row_count_to_be_between",
        min_value := some (min_value : ℚ), max_value := some (max_value : ℚ) })

/-- `_build_table_column_expectations` (lines 568-573): column count and ordered column
list expectations. -/
def _build_table_column_expectations (ds : Dataset) : Dataset :=
  let columns := ds.get_table_columns
  let ds := ds.append_expectation
    { expectation_type := "expect_table_column_count_to_equal", value := some columns.length }
  ds.append_expectation
    { expectation_type := "expect_table_columns_to_match_ordered_list",
      column_list := some columns }

/-- `_build_column_description_metadata` (lines 575-590): wrap the stored expectations
in a suite whose metadata maps every table column to an empty description. -/
def _build_column_description_metadata (ds : Dataset) : ExpectationSuite :=
  let columns := ds.get_table_columns
  let expectation_suite := ds.get_expectation_suite
  { expectation_suite with meta_columns := columns.map (fun c => (c, "")) }

/-! ### Module-level checks and removal helpers -/

/-- The loop body of `_check_that_expectations_are_available`: raise a `ProfilerError`
at the first requested expectation type the dataset does not offer. -/
def checkExpectationsList (ds : Dataset) : List String → Except PErr Unit
  | [] => .ok ()
  | e :: rest =>
    if e ∈ ds.list_available_expectation_types then checkExpectationsList ds rest
    else .error (.profilerError ("Expectation " ++ e ++ " is not available."))

/-- `_check_that_expectations_are_available` (lines 593-597): only a truthy value is
iterated. -/
def _check_that_expectations_are_available (ds : Dataset) (expectations : PyListVal) :
    Except PErr Unit :=
  if expectations.truthy then checkExpectationsList ds expectations.toList else .ok ()

/-- The loop body of `_check_that_columns_exist`: raise a `ProfilerError` at the first
selected column the table does not have. -/
def checkColumnsList (ds : Dataset) : List String → Except PErr Unit
  | [] => .ok ()
  | c :: rest =>
    if c ∈ ds.get_table_columns then checkColumnsList ds rest
    else .error (.profilerError ("Column " ++ c ++ " does not exist."))

/-- `_check_that_columns_exist` (lines 600-604): only a truthy value is iterated. -/
def _check_that_columns_exist (ds : Dataset) (columns : PyListVal) : Except PErr Unit :=
  if columns.truthy then checkColumnsList ds columns.toList else .ok ()

/-- `_remove_table_expectations` (lines 614-627): remove the table-level (column-less)
expectations whose type is listed; a removal that finds nothing is ignored. -/
def _remove_table_expectations (ds : Dataset) (all_types_to_remove : List String) :
    Dataset :=
  let suite := ds.get_expectation_suite
  let table_expectations := suite.expectations.filter (fun e => e.column = none)
  let removals := (table_expectations.filter
    (fun e => e.expectation_type ∈ all_types_to_remove)).map (fun e => e.expectation_type)
  removals.foldl (fun d t => d.remove_expectation_type t) ds

/-- `_remove_column_expectations` (lines 630-644): for every table column, remove the
column expectations whose type is listed; a removal that finds nothing is ignored. -/
def _remove_column_expectations (ds : Dataset) (all_types_to_remove : List String) :
    Dataset :=
  let suite := ds.get_expectation_suite
  let column_expectations := suite.expectations.filter (fun e => e.column.isSome)
  let removals := (column_expectations.filter
    (fun e => e.expectation_type ∈ all_types_to_remove)).map (fun e => e.expectation_type)
  ds.get_table_columns.foldl
    (fun d column =>
      removals.foldl (fun d2 t => d2.remove_expectation_type_col t (some column)) d) ds

/-- The `included_expectations` post-filter of `_profile` (lines 480-493): walk a
snapshot of the stored expectations and remove each one whose type is not included
(a removal that finds nothing is ignored). -/
def filterToIncluded (ds : Dataset) (included_expectations : List String) : Dataset :=
  (ds.get_expectation_suite).expectations.foldl
    (fun d e =>
      if e.expectation_type ∈ included_expectations then d
      else d.remove_expectation_exact e) ds

/-! ### The profiling loop and `_profile` itself -/

/-- The body of the `for column in selected_columns` loop of `_profile` (lines 439-475):
probe cardinality and type, then create the expectations matching the column's bucket. -/
def profileColumn (ds : Dataset) (column : String) (column_cache : ColumnCache) :
    Except PErr (Dataset × ColumnCache) :=
  let (cardinality, ds, column_cache) :=
    _get_column_cardinality_with_caching ds column column_cache
  let (column_type, ds, column_cache) :=
    _get_column_type_with_caching ds column column_cache
  if cardinality ∈ [ProfilerCardinality.TWO, ProfilerCardinality.VERY_FEW,
      ProfilerCardinality.FEW] then
    Except.ok (_create_expectations_for_low_card_column ds column column_cache)
  else if cardinality ∈ [ProfilerCardinality.MANY, ProfilerCardinality.VERY_MANY,
      ProfilerCardinality.UNIQUE] then
    let ds := ds.append_expectation
      { expectation_type := "expect_column_values_to_be_unique", column := some column }
    if column_type ∈ [ProfilerDataType.INT, ProfilerDataType.FLOAT] then do
      let ds ← _create_expectations_for_numeric_column ds column
      pure (ds, column_cache)
    else if column_type ∈ [ProfilerDataType.DATETIME] then do
      let ds ← _create_expectations_for_datetime_column ds column
      pure (ds, column_cache)
    else if column_type ∈ [ProfilerDataType.STRING] then
      Except.ok (_create_expectations_for_string_column ds column, column_cache)
    else
      Except.ok (ds, column_cache)
  else Except.ok (ds, column_cache)

/-- The `for column in selected_columns` loop of `_profile`. -/
def profileSelectedColumns (ds : Dataset) (columns : List String)
    (column_cache : ColumnCache) : Except PErr (Dataset × ColumnCache) :=
  match columns with
  | [] => Except.ok (ds, column_cache)
  | column :: rest => do
    let (ds, column_cache) ← profileColumn ds column column_cache
    profileSelectedColumns ds rest column_cache

/-- The configuration dictionary accepted by `_profile`: the five keys it can mention
(`none` = key absent) plus a flag recording whether the dictionary carries any further,
unexamined keys (which only matter for its truthiness). -/
structure ConfigDict where
  columns : Option PyListVal := none
  included_expectations : Option PyListVal := none
  excluded_expectations : Option PyListVal := none
  included_columns : Option PyListVal := none
  excluded_columns : Option PyListVal := none
  extra_keys : Bool := false
deriving DecidableEq

/-- Python truthiness of the configuration dictionary: nonemptiness. -/
def ConfigDict.truthy (c : ConfigDict) : Bool :=
  c.columns.isSome || c.included_expectations.isSome || c.excluded_expectations.isSome ||
  c.included_columns.isSome || c.excluded_columns.isSome || c.extra_keys

/-- A `configuration` argument of `_profile`: either the literal string `"demo"` or a
configuration dictionary (the surrounding `Option` models Python `None`). -/
inductive Configuration where
  | demo : Configuration
  | config (c : ConfigDict) : Configuration
deriving DecidableEq

/-- `_demo_profile` (lines 499-553): table-level expectations, then one example column
of each bucket (low-cardinality, numeric, string, datetime), then metadata and notes. -/
def _demo_profile (ds : Dataset) : Except PErr ExpectationSuite := do
  let ds := ds.set_default_catch_exceptions false
  let ds ← _build_table_row_count_expectation ds (0.1 : ℚ)
  let ds := ds.set_interactive_evaluation true
  let ds := _build_table_column_expectations ds
  let columns := ds.get_table_columns
  let column_cache : ColumnCache := []
  let profiled_columns : ProfiledColumns := {}
  let (columnOpt, ds, column_cache) :=
    _find_next_low_card_column ds columns profiled_columns column_cache
  let (ds, column_cache, profiled_columns) :=
    match columnOpt with
    | some column =>
      if column = "" then (ds, column_cache, profiled_columns)
      else
        let (ds, column_cache) :=
          _create_expectations_for_low_card_column ds column column_cache
        (ds, column_cache,
          { profiled_columns with low_card := profiled_columns.low_card ++ [column] })
    | none => (ds, column_cache, profiled_columns)
  let (columnOpt, ds, column_cache) :=
    _find_next_numeric_column ds columns profiled_columns column_cache
  let (ds, profiled_columns) ← (match columnOpt with
    | some column =>
      if column = "" then pure (ds, profiled_columns)
      else do
        let ds ← _create_expectations_for_numeric_column ds column
        pure (ds,
          { profiled_columns with numeric := profiled_columns.numeric ++ [column] })
    | none => pure (ds, profiled_columns))
  let (columnOpt, ds, column_cache) :=
    _find_next_string_column ds columns profiled_columns column_cache
  let (ds, profiled_columns) :=
    match columnOpt with
    | some column =>
      if column = "" then (ds, profiled_columns)
      else
        (_create_expectations_for_string_column ds column,
          { profiled_columns with string := profiled_columns.string ++ [column] })
    | none => (ds, profiled_columns)
  let (columnOpt, ds, _column_cache) :=
    _find_next_datetime_column ds columns profiled_columns column_cache
  let ds ← (match columnOpt with
    | some column =>
      if column = "" then pure ds
      else _create_expectations_for_datetime_column ds column
    | none => pure ds)
  let expectation_suite := _build_column_description_metadata ds
  let content := "#### This is an _example_ suite\n\n- This suite was made by quickly glancing at 1000 rows of your data.\n- This is **not a production suite**. It is meant to show examples of expectations.\n- Because this suite was auto-generated using a very basic profiler that does not know your data like you do, many of the expectations may not be meaningful.\n"
  pure { expectation_suite with meta_notes := some content }

/-- The `selected_columns` computation of `_profile` (lines 389, 417-423): the
`included_columns` value when given; the existing columns minus the (normalised)
`excluded_columns` when given; all existing columns otherwise. -/
def computeSelectedColumns (c : ConfigDict) (existing_columns : List String) : PyListVal :=
  match c.included_columns, c.excluded_columns with
  | some v, _ => v
  | none, some w =>
    let excluded_columns := if w.isEmptyFalsy then [] else w.toList
    PyListVal.pyList (existing_columns.filter (fun col => col ∉ excluded_columns))
  | none, none => PyListVal.pyList existing_columns

/-- The `if configuration:` block of `_profile` (lines 393-423): validate the
included/excluded expectation keys, normalise them, validate the included/excluded
column keys and compute the selected columns.  Returns
`(included_expectations, excluded_expectations, selected_columns)`. -/
def applyConfigDict (ds : Dataset) (c : ConfigDict) (existing_columns : List String) :
    Except PErr (Option (List String) × PyListVal × PyListVal) :=
  if c.included_expectations.isSome && c.excluded_expectations.isSome then
    .error (.profilerError
      "Please specify either `included_expectations` or `excluded_expectations`.")
  else do
    let included_expectations : Option (List String) ←
      (match c.included_expectations with
      | some v => do
        let inc := v.normalizeOpt
        _check_that_expectations_are_available ds (PyListVal.ofOpt inc)
        pure inc
      | none => pure (some []))
    let excluded_expectations : PyListVal ←
      (match c.excluded_expectations with
      | some v => do
        _check_that_expectations_are_available ds v
        pure v
      | none => pure (PyListVal.pyList []))
    if c.included_columns.isSome && c.excluded_columns.isSome then
      .error (.profilerError
        "Please specify either `excluded_columns` or `included_columns`.")
    else
      pure (included_expectations, excluded_expectations,
        computeSelectedColumns c existing_columns)

/-- `BasicSuiteBuilderProfiler._profile` (lines 382-497). -/
def _profile (ds : Dataset) (configuration : Option Configuration) :
    Except PErr ExpectationSuite :=
  match configuration with
  | some Configuration.demo => _demo_profile ds
  | _ => do
    let existing_columns := ds.get_table_columns
    let (included_expectations, excluded_expectations, selected_columns) ←
      (match configuration with
      | some (Configuration.config c) =>
        if c.truthy then applyConfigDict ds c existing_columns
        else pure (some [], PyListVal.pyList [], PyListVal.pyList existing_columns)
      | _ => pure (some [], PyListVal.pyList [], PyListVal.pyList existing_columns))
    _check_that_columns_exist ds selected_columns
    match included_expectations with
    | none =>
      let suite := _build_column_description_metadata ds
      pure { suite with expectations := [] }
    | some included_list => do
      let ds := ds.set_default_catch_exceptions false
      let ds ← _build_table_row_count_expectation ds (0.1 : ℚ)
      let ds := ds.set_interactive_evaluation true
      let ds := _build_table_column_expectations ds
      let (ds, _column_cache) ←
        (if selected_columns.truthy then
          profileSelectedColumns ds selected_columns.toList []
        else pure (ds, ([] : ColumnCache)))
      let ds :=
        if excluded_expectations.truthy then
          _remove_column_expectations
            (_remove_table_expectations ds excluded_expectations.toList)
            excluded_expectations.toList
        else ds
      let ds := if included_list.isEmpty then ds else filterToIncluded ds included_list
      pure (_build_column_description_metadata ds)

/-! ### Helper lemmas -/

theorem except_error_bind {ε α β : Type} (e : ε) (f : α → Except ε β) :
    (Except.error e >>= f) = Except.error e := rfl

theorem except_ok_bind {ε α β : Type} (a : α) (f : α → Except ε β) :
    (Except.ok a >>= f) = f a := rfl

/-- Storing an expectation makes it part of the stored suite. -/
theorem append_expectation_self_mem (ds : Dataset) (e : Expectation) :
    e ∈ (ds.append_expectation e).suite_expectations := by
  simp [Dataset.append_expectation]

/-- Storing an expectation keeps every stored expectation with a different
type-and-column key. -/
theorem append_expectation_preserves_mem (ds : Dataset) (e x : Expectation)
    (hmem : x ∈ ds.suite_expectations)
    (h : ¬ (x.expectation_type = e.expectation_type ∧ x.column = e.column)) :
    x ∈ (ds.append_expectation e).suite_expectations := by
  simp [Dataset.append_expectation, List.mem_filter, hmem, h]
  tauto

theorem set_interactive_evaluation_suite (ds : Dataset) (b : Bool) :
    (ds.set_interactive_evaluation b).suite_expectations = ds.suite_expectations := rfl

/-- A small concrete dataset shared by the witnesses: two string-typed, unique
columns. -/
def sampleStats : ColumnStats :=
  { cardinality := .UNIQUE, ctype := .STRING, observed_min := .num 0,
    observed_max := .num 9, observed_mean := .num 4, observed_median := .num 5,
    observed_quantiles := [0.05, 0.25, 0.5, 0.75, 0.95],
    observed_quantile_values := [1, 2, 5, 7, 9] }

def sampleDataset : Dataset :=
  { table_columns := ["a", "b"],
    available_expectation_types := ["expect_column_values_to_not_be_null"],
    row_count := 10,
    column_stats := fun _ => sampleStats }

/-! ### Theorems for the profiler claims -/

/-- C10: for every dataset (with observed row count `n : ℕ`), the row-count expectation
built with the default tolerance `0.1` carries `min_value = max(0, int(n * 0.9))` and
`max_value = int(n * 1.1)`, and these bounds satisfy `min_value ≤ n ≤ max_value`. -/
theorem row_count_expectation_contains_observed (ds : Dataset) :
    ∃ ds', _build_table_row_count_expectation ds (0.1 : ℚ) = .ok ds' ∧
      ({ expectation_type := "expect_table_row_count_to_be_between",
         min_value := some ((max 0 (pyInt ((ds.row_count : ℚ) * (0.9 : ℚ))) : ℤ) : ℚ),
         max_value := some ((pyInt ((ds.row_count : ℚ) * (1.1 : ℚ)) : ℤ) : ℚ) } :
          Expectation) ∈ ds'.suite_expectations ∧
      max 0 (pyInt ((ds.row_count : ℚ) * (0.9 : ℚ))) ≤ (ds.row_count : ℤ) ∧
      (ds.row_count : ℤ) ≤ pyInt ((ds.row_count : ℚ) * (1.1 : ℚ)) := by
  have h09 : (1 : ℚ) - (0.1 : ℚ) = (0.9 : ℚ) := by norm_num
  have h11 : (1 : ℚ) + (0.1 : ℚ) = (1.1 : ℚ) := by norm_num
  have hneg : ¬ ((0.1 : ℚ) < 0) := by norm_num
  simp only [_build_table_row_count_expectation, if_neg hneg, h09, h11]
  refine ⟨_, rfl, ?_, ?_, ?_⟩
  · exact append_expectation_self_mem _ _
  · have hq : (0 : ℚ) ≤ (ds.row_count : ℚ) * (0.9 : ℚ) := by positivity
    rw [pyInt, if_pos hq]
    apply max_le
    · exact_mod_cast Nat.zero_le _
    · have hle : (ds.row_count : ℚ) * (0.9 : ℚ) ≤ (ds.row_count : ℚ) := by
        nlinarith [Nat.cast_nonneg (α := ℚ) ds.row_count]
      calc ⌊(ds.row_count : ℚ) * (0.9 : ℚ)⌋ ≤ ⌊(ds.row_count : ℚ)⌋ :=
            Int.floor_le_floor hle
        _ = (ds.row_count : ℤ) := Int.floor_natCast _
  · have hq : (0 : ℚ) ≤ (ds.row_count : ℚ) * (1.1 : ℚ) := by positivity
    rw [pyInt, if_pos hq, Int.le_floor]
    push_cast
    nlinarith [Nat.cast_nonneg (α := ℚ) ds.row_count]

/-- C1: for every dataset and every configuration dictionary containing both the
`included_expectations` and the `excluded_expectations` key, `_profile` raises a
`ProfilerError`, regardless of the values under those keys. -/
theorem profile_conflicting_expectation_keys_raises (ds : Dataset) (c : ConfigDict)
    (h1 : c.included_expectations.isSome = true)
    (h2 : c.excluded_expectations.isSome = true) :
    _profile ds (some (Configuration.config c)) =
      .error (.profilerError
        "Please specify either `included_expectations` or `excluded_expectations`.") := by
  have ht : c.truthy = true := by simp [ConfigDict.truthy, h1]
  simp only [_profile, applyConfigDict, ht, h1, h2, Bool.and_self, if_true,
    except_error_bind]

/-- Witness for C1 at a concrete dataset and configuration. -/
theorem profile_conflicting_expectation_keys_raises_witness :
    _profile sampleDataset (some (Configuration.config
      { included_expectations := some (.pyList ["x"]),
        excluded_expectations := some (.pyList ["y"]) })) =
      .error (.profilerError
        "Please specify either `included_expectations` or `excluded_expectations`.") :=
  profile_conflicting_expectation_keys_raises sampleDataset
    { included_expectations := some (.pyList ["x"]),
      excluded_expectations := some (.pyList ["y"]) } rfl rfl

theorem except_pure_bind {ε α β : Type} (a : α) (f : α → Except ε β) :
    ((pure a : Except ε α) >>= f) = f a := rfl

/-- The expectation-availability loop either succeeds or raises a `ProfilerError`. -/
theorem checkExpectationsList_ok_or_profiler (ds : Dataset) (l : List String) :
    checkExpectationsList ds l = .ok () ∨
    ∃ m, checkExpectationsList ds l = .error (.profilerError m) := by
  induction l with
  | nil => exact Or.inl rfl
  | cons e rest ih =>
    rw [checkExpectationsList]
    split
    · exact ih
    · exact Or.inr ⟨_, rfl⟩

/-- `_check_that_expectations_are_available` either succeeds or raises a
`ProfilerError`. -/
theorem check_expectations_ok_or_profiler (ds : Dataset) (v : PyListVal) :
    _check_that_expectations_are_available ds v = .ok () ∨
    ∃ m, _check_that_expectations_are_available ds v = .error (.profilerError m) := by
  rw [_check_that_expectations_are_available]
  split
  · exact checkExpectationsList_ok_or_profiler ds v.toList
  · exact Or.inl rfl

/-- The expectation-availability loop raises a `ProfilerError` when some listed
expectation type is unavailable. -/
theorem checkExpectationsList_error_of_unavailable (ds : Dataset) (l : List String)
    (e : String) (he : e ∈ l) (hna : e ∉ ds.available_expectation_types) :
    ∃ m, checkExpectationsList ds l = .error (.profilerError m) := by
  induction l with
  | nil => cases he
  | cons x rest ih =>
    rw [checkExpectationsList]
    split
    · next hx =>
      rcases List.mem_cons.mp he with heq | hrest
      · exact absurd (heq ▸ hx) hna
      · exact ih hrest
    · exact ⟨_, rfl⟩

/-- A truthiness bridge: a value with a member in its list view is a non-empty list. -/
theorem PyListVal.truthy_of_mem (v : PyListVal) (e : String) (he : e ∈ v.toList) :
    v.truthy = true := by
  cases v with
  | pyFalse => simp [PyListVal.toList] at he
  | pyNone => simp [PyListVal.toList] at he
  | pyList xs =>
    cases xs with
    | nil => simp [PyListVal.toList] at he
    | cons a l => rfl

/-- `_check_that_expectations_are_available` raises a `ProfilerError` when the value
lists an unavailable expectation type. -/
theorem check_expectations_error_of_unavailable (ds : Dataset) (v : PyListVal)
    (e : String) (he : e ∈ v.toList) (hna : e ∉ ds.available_expectation_types) :
    ∃ m, _check_that_expectations_are_available ds v = .error (.profilerError m) := by
  rw [_check_that_expectations_are_available,
    if_pos (PyListVal.truthy_of_mem v e he)]
  exact checkExpectationsList_error_of_unavailable ds v.toList e he hna

/-- Normalising and re-wrapping `included_expectations` preserves the list view. -/
theorem PyListVal.toList_ofOpt_normalizeOpt (v : PyListVal) :
    (PyListVal.ofOpt v.normalizeOpt).toList = v.toList := by
  cases v with
  | pyFalse => rfl
  | pyNone => rfl
  | pyList xs => cases xs with
    | nil => rfl
    | cons a l => rfl

/-- The column-existence loop succeeds when every listed column exists. -/
theorem checkColumnsList_ok_of_all_exist (ds : Dataset) (l : List String)
    (h : ∀ col ∈ l, col ∈ ds.table_columns) : checkColumnsList ds l = .ok () := by
  induction l with
  | nil => rfl
  | cons x rest ih =>
    rw [checkColumnsList,
      if_pos (show x ∈ ds.get_table_columns from h x (List.mem_cons_self x rest))]
    exact ih (fun col hc => h col (List.mem_cons_of_mem x hc))

/-- `_check_that_columns_exist` succeeds when every selected column exists. -/
theorem check_columns_ok_of_all_exist (ds : Dataset) (v : PyListVal)
    (h : ∀ col ∈ v.toList, col ∈ ds.table_columns) :
    _check_that_columns_exist ds v = .ok () := by
  rw [_check_that_columns_exist]
  split
  · exact checkColumnsList_ok_of_all_exist ds v.toList h
  · rfl

/-- The column-existence loop raises a `ProfilerError` when some listed column does
not exist. -/
theorem checkColumnsList_error_of_missing (ds : Dataset) (l : List String)
    (col : String) (hc : col ∈ l) (hna : col ∉ ds.table_columns) :
    ∃ m, checkColumnsList ds l = .error (.profilerError m) := by
  induction l with
  | nil => cases hc
  | cons x rest ih =>
    rw [checkColumnsList]
    split
    · next hx =>
      rcases List.mem_cons.mp hc with heq | hrest
      · exact absurd (heq ▸ hx) hna
      · exact ih hrest
    · exact ⟨_, rfl⟩

/-- `_check_that_columns_exist` raises a `ProfilerError` when the selection lists a
nonexistent column. -/
theorem check_columns_error_of_missing (ds : Dataset) (v : PyListVal)
    (col : String) (hc : col ∈ v.toList) (hna : col ∉ ds.table_columns) :
    ∃ m, _check_that_columns_exist ds v = .error (.profilerError m) := by
  rw [_check_that_columns_exist, if_pos (PyListVal.truthy_of_mem v col hc)]
  exact checkColumnsList_error_of_missing ds v.toList col hc hna

/-- `applyConfigDict` either raises a `ProfilerError`, or there is no column-key
conflict and it returns some included/excluded values together with the computed
selected columns. -/
theorem applyConfigDict_cases (ds : Dataset) (c : ConfigDict) (existing : List String) :
    (∃ m, applyConfigDict ds c existing = .error (.profilerError m)) ∨
    ((c.included_columns.isSome && c.excluded_columns.isSome) = false ∧
      ∃ inc exc, applyConfigDict ds c existing =
        .ok (inc, exc, computeSelectedColumns c existing)) := by
  rw [applyConfigDict]
  split
  · exact Or.inl ⟨_, rfl⟩
  · cases hinc : c.included_expectations with
    | some v =>
      rcases check_expectations_ok_or_profiler ds (.ofOpt v.normalizeOpt) with hok | ⟨m, hm⟩
      · simp only [hok, except_ok_bind, except_pure_bind]
        cases hexc : c.excluded_expectations with
        | some w =>
          rcases check_expectations_ok_or_profiler ds w with hok2 | ⟨m2, hm2⟩
          · simp only [hok2, except_ok_bind, except_pure_bind]
            split
            · exact Or.inl ⟨_, rfl⟩
            · next hcond =>
              refine Or.inr ⟨by simpa using hcond, _, _, rfl⟩
          · simp only [hm2, except_error_bind]
            exact Or.inl ⟨_, rfl⟩
        | none =>
          simp only [except_pure_bind]
          split
          · exact Or.inl ⟨_, rfl⟩
          · next hcond =>
            refine Or.inr ⟨by simpa using hcond, _, _, rfl⟩
      · simp only [hm, except_error_bind]
        exact Or.inl ⟨_, rfl⟩
    | none =>
      simp only [except_pure_bind]
      cases hexc : c.excluded_expectations with
      | some w =>
        rcases check_expectations_ok_or_profiler ds w with hok2 | ⟨m2, hm2⟩
        · simp only [hok2, except_ok_bind, except_pure_bind]
          split
          · exact Or.inl ⟨_, rfl⟩
          · next hcond =>
            refine Or.inr ⟨by simpa using hcond, _, _, rfl⟩
        · simp only [hm2, except_error_bind]
          exact Or.inl ⟨_, rfl⟩
      | none =>
        simp only [except_pure_bind]
        split
        · exact Or.inl ⟨_, rfl⟩
        · next hcond =>
          refine Or.inr ⟨by simpa using hcond, _, _, rfl⟩

/-- With both column keys present, `applyConfigDict` raises a `ProfilerError`. -/
theorem applyConfigDict_column_conflict (ds : Dataset) (c : ConfigDict)
    (existing : List String)
    (h1 : c.included_columns.isSome = true) (h2 : c.excluded_columns.isSome = true) :
    ∃ m, applyConfigDict ds c existing = .error (.profilerError m) := by
  rcases applyConfigDict_cases ds c existing with h | ⟨hfalse, _⟩
  · exact h
  · rw [h1, h2] at hfalse
    cases hfalse

/-- C2: for every dataset and every configuration dictionary containing both the
`included_columns` and the `excluded_columns` key, `_profile` raises a
`ProfilerError`, regardless of the values under those keys. -/
theorem profile_conflicting_column_keys_raises (ds : Dataset) (c : ConfigDict)
    (h1 : c.included_columns.isSome = true) (h2 : c.excluded_columns.isSome = true) :
    ∃ m, _profile ds (some (Configuration.config c)) = .error (.profilerError m) := by
  have ht : c.truthy = true := by simp [ConfigDict.truthy, h1]
  obtain ⟨m, hm⟩ := applyConfigDict_column_conflict ds c ds.get_table_columns h1 h2
  exact ⟨m, by simp only [_profile, ht, if_true, hm, except_error_bind]⟩

/-- Witness for C2 at a concrete dataset and configuration. -/
theorem profile_conflicting_column_keys_raises_witness :
    ∃ m, _profile sampleDataset (some (Configuration.config
      { included_columns := some (.pyList ["a"]),
        excluded_columns := some (.pyList ["b"]) })) =
      .error (.profilerError m) :=
  profile_conflicting_column_keys_raises sampleDataset
    { included_columns := some (.pyList ["a"]),
      excluded_columns := some (.pyList ["b"]) } rfl rfl

/-- When `included_expectations` lists an unavailable expectation type,
`applyConfigDict` raises a `ProfilerError`. -/
theorem applyConfigDict_error_included (ds : Dataset) (c : ConfigDict)
    (existing : List String) (v : PyListVal) (e : String)
    (hv : c.included_expectations = some v) (he : e ∈ v.toList)
    (hna : e ∉ ds.available_expectation_types) :
    ∃ m, applyConfigDict ds c existing = .error (.profilerError m) := by
  rw [applyConfigDict]
  split
  · exact ⟨_, rfl⟩
  · rw [hv]
    obtain ⟨m, hm⟩ := check_expectations_error_of_unavailable ds
      (PyListVal.ofOpt v.normalizeOpt) e
      (by rw [PyListVal.toList_ofOpt_normalizeOpt]; exact he) hna
    simp only [hm, except_error_bind]
    exact ⟨m, rfl⟩

/-- When `excluded_expectations` lists an unavailable expectation type,
`applyConfigDict` raises a `ProfilerError`. -/
theorem applyConfigDict_error_excluded (ds : Dataset) (c : ConfigDict)
    (existing : List String) (v : PyListVal) (e : String)
    (hv : c.excluded_expectations = some v) (he : e ∈ v.toList)
    (hna : e ∉ ds.available_expectation_types) :
    ∃ m, applyConfigDict ds c existing = .error (.profilerError m) := by
  rw [applyConfigDict]
  split
  · exact ⟨_, rfl⟩
  · obtain ⟨m, hm⟩ := check_expectations_error_of_unavailable ds v e he hna
    cases hinc : c.included_expectations with
    | some w =>
      rcases check_expectations_ok_or_profiler ds (.ofOpt w.normalizeOpt) with
        hok | ⟨m2, hm2⟩
      · simp only [hok, except_ok_bind, except_pure_bind, hv, hm, except_error_bind]
        exact ⟨m, rfl⟩
      · simp only [hm2, except_error_bind]
        exact ⟨m2, rfl⟩
    | none =>
      simp only [except_pure_bind, hv, hm, except_error_bind]
      exact ⟨m, rfl⟩

/-- C3: for every dataset and configuration, naming an expectation type (under
`included_expectations` or `excluded_expectations`) that the dataset does not offer, or
selecting a column (via `included_columns`, or surviving `excluded_columns`) that the
table does not have, makes `_profile` raise a `ProfilerError`. -/
theorem profile_unknown_expectation_or_column_raises (ds : Dataset) (c : ConfigDict)
    (h :
      (∃ e, e ∉ ds.available_expectation_types ∧
        ((∃ v, c.included_expectations = some v ∧ e ∈ v.toList) ∨
         (∃ v, c.excluded_expectations = some v ∧ e ∈ v.toList))) ∨
      (∃ col, col ∉ ds.table_columns ∧
        ((∃ v, c.included_columns = some v ∧ col ∈ v.toList) ∨
         (∃ v, c.excluded_columns = some v ∧
           col ∈ ds.table_columns.filter
             (fun x => x ∉ (if v.isEmptyFalsy then ([] : List String) else v.toList)))))) :
    ∃ m, _profile ds (some (Configuration.config c)) = .error (.profilerError m) := by
  rcases h with ⟨e, hna, hcase⟩ | ⟨col, hna, hcase⟩
  · have ht : c.truthy = true := by
      rcases hcase with ⟨v, hv, _⟩ | ⟨v, hv, _⟩ <;> simp [ConfigDict.truthy, hv]
    have herr : ∃ m, applyConfigDict ds c ds.get_table_columns =
        .error (.profilerError m) := by
      rcases hcase with ⟨v, hv, he⟩ | ⟨v, hv, he⟩
      · exact applyConfigDict_error_included ds c _ v e hv he hna
      · exact applyConfigDict_error_excluded ds c _ v e hv he hna
    obtain ⟨m, hm⟩ := herr
    exact ⟨m, by simp only [_profile, ht, if_true, hm, except_error_bind]⟩
  · rcases hcase with ⟨v, hv, hcv⟩ | ⟨v, hv, hcv⟩
    · have ht : c.truthy = true := by simp [ConfigDict.truthy, hv]
      rcases applyConfigDict_cases ds c ds.get_table_columns with
        ⟨m, hm⟩ | ⟨hnc, inc, exc, hok⟩
      · exact ⟨m, by simp only [_profile, ht, if_true, hm, except_error_bind]⟩
      · have hsel : computeSelectedColumns c ds.get_table_columns = v := by
          rw [computeSelectedColumns, hv]
        obtain ⟨m, hm⟩ := check_columns_error_of_missing ds v col hcv hna
        refine ⟨m, ?_⟩
        simp only [_profile, ht, if_true, hok, except_ok_bind, hsel, hm,
          except_error_bind]
    · exact absurd (List.mem_filter.mp hcv).1 hna

/-- Witness for C3: requesting an unavailable expectation type on a concrete dataset. -/
theorem profile_unknown_expectation_or_column_raises_witness :
    ∃ m, _profile sampleDataset (some (Configuration.config
      { included_expectations := some (.pyList ["bogus"]) })) =
      .error (.profilerError m) :=
  profile_unknown_expectation_or_column_raises sampleDataset
    { included_expectations := some (.pyList ["bogus"]) }
    (Or.inl ⟨"bogus", by decide, Or.inl ⟨.pyList ["bogus"], rfl, by decide⟩⟩)

/-- C9, counterexample: with `included_expectations` empty the profiler can still
raise (here the configuration also carries an `excluded_expectations` key, and the
key-conflict check fires before the degenerate value is inspected), refuting "no error
is raised for this degenerate configuration" as universally stated. -/
theorem profile_empty_included_expectations_can_still_raise :
    _profile sampleDataset (some (Configuration.config
      { included_expectations := some (.pyList []),
        excluded_expectations := some (.pyList []) })) =
      .error (.profilerError
        "Please specify either `included_expectations` or `excluded_expectations`.") := rfl

/-- C9 (amended): when the `included_expectations` value is empty, `False` or `None`,
the configuration carries no conflicting keys (no `excluded_expectations`, not both
column keys) and every selected column exists, `_profile` does not raise and returns a
suite with an empty expectations list and only the column-description metadata set. -/
theorem profile_empty_included_expectations_returns_empty_suite
    (ds : Dataset) (c : ConfigDict) (v : PyListVal)
    (hv : c.included_expectations = some v) (hempty : v.isEmptyFalsy = true)
    (hexc : c.excluded_expectations = none)
    (hcols : (c.included_columns.isSome && c.excluded_columns.isSome) = false)
    (hexist : ∀ col ∈ (computeSelectedColumns c ds.table_columns).toList,
      col ∈ ds.table_columns) :
    _profile ds (some (Configuration.config c)) =
      .ok { expectations := [],
            meta_columns := ds.table_columns.map (fun col => (col, "")),
            meta_notes := none } := by
  have ht : c.truthy = true := by simp [ConfigDict.truthy, hv]
  have hnorm : v.normalizeOpt = none := by rw [PyListVal.normalizeOpt, if_pos hempty]
  have hchk2 : _check_that_expectations_are_available ds (PyListVal.ofOpt none) =
      .ok () := rfl
  have happly : applyConfigDict ds c ds.table_columns =
      .ok (none, PyListVal.pyList [], computeSelectedColumns c ds.table_columns) := by
    rw [applyConfigDict]
    rw [if_neg (by rw [hv, hexc]; simp)]
    rw [hv, hexc]
    simp only [hnorm, hchk2, except_ok_bind, except_pure_bind]
    simp [hcols]
    rfl
  have hcc : _check_that_columns_exist ds
      (computeSelectedColumns c ds.table_columns) = .ok () :=
    check_columns_ok_of_all_exist ds _ hexist
  simp only [_profile, ht, if_true, Dataset.get_table_columns, happly, except_ok_bind,
    hcc]
  rfl

/-- Witness for the amended C9 at a concrete dataset and configuration. -/
theorem profile_empty_included_expectations_returns_empty_suite_witness :
    _profile sampleDataset (some (Configuration.config
      { included_expectations := some (.pyList []) })) =
      .ok { expectations := [],
            meta_columns := sampleDataset.table_columns.map (fun col => (col, "")),
            meta_notes := none } :=
  profile_empty_included_expectations_returns_empty_suite sampleDataset
    { included_expectations := some (.pyList []) } (.pyList [])
    rfl rfl rfl rfl (by decide)

/-- A non-truthy configuration dictionary has none of the examined keys. -/
theorem configDict_not_truthy (c : ConfigDict) (h : c.truthy = false) :
    c.included_expectations = none ∧ c.excluded_expectations = none ∧
    c.included_columns = none ∧ c.excluded_columns = none := by
  rw [ConfigDict.truthy] at h
  simp only [Bool.or_eq_false_iff] at h
  obtain ⟨⟨⟨⟨⟨h0, h1⟩, h2⟩, h3⟩, h4⟩, hex⟩ := h
  exact ⟨Option.not_isSome_iff_eq_none.mp (by simp [h1]),
    Option.not_isSome_iff_eq_none.mp (by simp [h2]),
    Option.not_isSome_iff_eq_none.mp (by simp [h3]),
    Option.not_isSome_iff_eq_none.mp (by simp [h4])⟩

/-- With none of the four examined keys present, the configuration block leaves the
defaults in place: everything included, nothing excluded, all columns selected. -/
theorem applyConfigDict_defaults (ds : Dataset) (existing : List String) (c : ConfigDict)
    (h1 : c.included_expectations = none) (h2 : c.excluded_expectations = none)
    (h3 : c.included_columns = none) (h4 : c.excluded_columns = none) :
    applyConfigDict ds c existing =
      .ok (some [], PyListVal.pyList [], PyListVal.pyList existing) := by
  rw [applyConfigDict]
  rw [if_neg (by rw [h1]; simp)]
  rw [h1, h2]
  simp only [except_pure_bind]
  rw [if_neg (by rw [h3]; simp)]
  rw [computeSelectedColumns, h3, h4]
  rfl

/-- C7 fails on the code: the `columns` configuration key is dead.  The result of
`_profile` never depends on the value under `columns` (first conjunct), and a
configuration consisting of just a `columns` key behaves exactly like no configuration
at all — every table column is profiled, not only the listed ones (second conjunct). -/
theorem profile_columns_key_is_ignored :
    (∀ (ds : Dataset) (c : ConfigDict) (v v' : Option PyListVal),
      _profile ds (some (.config { c with columns := v })) =
        _profile ds (some (.config { c with columns := v' }))) ∧
    (∀ (ds : Dataset) (v : PyListVal),
      _profile ds (some (.config { columns := some v })) = _profile ds none) := by
  constructor
  · intro ds c v v'
    obtain ⟨cols, ie, ee, ic, ec, ex⟩ := c
    by_cases hA : (ConfigDict.mk v ie ee ic ec ex).truthy = true
    · by_cases hB : (ConfigDict.mk v' ie ee ic ec ex).truthy = true
      · simp only [_profile]
        rw [if_pos hA, if_pos hB]
        rfl
      · have hB' : (ConfigDict.mk v' ie ee ic ec ex).truthy = false := by
          simpa using hB
        obtain ⟨k1, k2, k3, k4⟩ := configDict_not_truthy _ hB'
        simp only at k1 k2 k3 k4
        subst k1; subst k2; subst k3; subst k4
        simp only [_profile]
        rw [if_pos hA, if_neg (by simp [hB']), applyConfigDict_defaults ds _ _
          rfl rfl rfl rfl]
        rfl
    · have hA' : (ConfigDict.mk v ie ee ic ec ex).truthy = false := by simpa using hA
      obtain ⟨k1, k2, k3, k4⟩ := configDict_not_truthy _ hA'
      simp only at k1 k2 k3 k4
      subst k1; subst k2; subst k3; subst k4
      by_cases hB : (ConfigDict.mk v' none none none none ex).truthy = true
      · simp only [_profile]
        rw [if_neg (by simp [hA']), if_pos hB, applyConfigDict_defaults ds _ _
          rfl rfl rfl rfl]
        rfl
      · simp only [_profile]
        rw [if_neg (by simp [hA']), if_neg (by simpa using hB)]
  · intro ds v
    rfl

/-- Probing non-nullity does not change the dataset's aggregate answers. -/
theorem create_non_nullity_column_stats (ds : Dataset) (column : String) :
    (_create_non_nullity_expectations ds column).column_stats = ds.column_stats := by
  simp only [_create_non_nullity_expectations]
  split <;> rfl

/-- Storing an expectation of a different type keeps a stored expectation. -/
theorem mem_append_of_ne_type (ds : Dataset) (e x : Expectation)
    (hne : x.expectation_type ≠ e.expectation_type)
    (hmem : x ∈ ds.suite_expectations) :
    x ∈ (ds.append_expectation e).suite_expectations :=
  append_expectation_preserves_mem ds e x hmem (fun hc => hne hc.1)

/-- C8: for a numeric column whose observed min/max/mean/median are numbers (not `nan`)
and whose quantile probe raised no exception, `_create_expectations_for_numeric_column`
succeeds and the suite it leaves behind contains, for each of the four aggregates, a
range check with bounds `[observed - 1, observed + 1]`, and a quantile expectation
whose value ranges are `[v - 1, v + 1]` around each observed quantile value `v`; each
such range contains the observed statistic. -/
theorem numeric_column_ranges_contain_observed (ds : Dataset) (column : String)
    (mn mx mean median : ℚ)
    (hmn : (ds.column_stats column).observed_min = .num mn)
    (hmx : (ds.column_stats column).observed_max = .num mx)
    (hme : (ds.column_stats column).observed_mean = .num mean)
    (hmd : (ds.column_stats column).observed_median = .num median)
    (hq : (ds.column_stats column).quantile_exception = false) :
    ∃ ds', _create_expectations_for_numeric_column ds column = .ok ds' ∧
      (({ expectation_type := "expect_column_min_to_be_between", column := some column,
          min_value := some (mn - 1), max_value := some (mn + 1) } : Expectation) ∈
        ds'.suite_expectations ∧ mn - 1 ≤ mn ∧ mn ≤ mn + 1) ∧
      (({ expectation_type := "expect_column_max_to_be_between", column := some column,
          min_value := some (mx - 1), max_value := some (mx + 1) } : Expectation) ∈
        ds'.suite_expectations ∧ mx - 1 ≤ mx ∧ mx ≤ mx + 1) ∧
      (({ expectation_type := "expect_column_mean_to_be_between", column := some column,
          min_value := some (mean - 1), max_value := some (mean + 1) } : Expectation) ∈
        ds'.suite_expectations ∧ mean - 1 ≤ mean ∧ mean ≤ mean + 1) ∧
      (({ expectation_type := "expect_column_median_to_be_between", column := some column,
          min_value := some (median - 1), max_value := some (median + 1) } :
            Expectation) ∈
        ds'.suite_expectations ∧ median - 1 ≤ median ∧ median ≤ median + 1) ∧
      (({ expectation_type := "expect_column_quantile_values_to_be_between",
          column := some column,
          quantiles := some (ds.column_stats column).observed_quantiles,
          value_ranges := some ((ds.column_stats column).observed_quantile_values.map
            (fun v => (some (v - 1), some (v + 1)))) } : Expectation) ∈
        ds'.suite_expectations ∧
        ∀ v ∈ (ds.column_stats column).observed_quantile_values,
          v - 1 ≤ v ∧ v ≤ v + 1) := by
  have hcs := create_non_nullity_column_stats ds column
  simp only [_create_expectations_for_numeric_column, hcs, hmn, hmx, hme, hmd, hq,
    _is_nan, ObsVal.asNum, except_ok_bind, except_pure_bind, Bool.false_eq_true,
    not_false_eq_true, if_true, if_false, ite_false, ite_true]
  refine ⟨_, rfl, ⟨?_, by linarith, by linarith⟩, ⟨?_, by linarith, by linarith⟩,
    ⟨?_, by linarith, by linarith⟩, ⟨?_, by linarith, by linarith⟩,
    ⟨?_, fun v _ => ⟨by linarith, by linarith⟩⟩⟩
  · rw [set_interactive_evaluation_suite]
    apply mem_append_of_ne_type _ _ _ (by simp)
    rw [set_interactive_evaluation_suite]
    apply mem_append_of_ne_type _ _ _ (by simp)
    apply mem_append_of_ne_type _ _ _ (by simp)
    apply mem_append_of_ne_type _ _ _ (by simp)
    apply mem_append_of_ne_type _ _ _ (by simp)
    apply mem_append_of_ne_type _ _ _ (by simp)
    apply mem_append_of_ne_type _ _ _ (by simp)
    apply mem_append_of_ne_type _ _ _ (by simp)
    exact append_expectation_self_mem _ _
  · rw [set_interactive_evaluation_suite]
    apply mem_append_of_ne_type _ _ _ (by simp)
    rw [set_interactive_evaluation_suite]
    apply mem_append_of_ne_type _ _ _ (by simp)
    apply mem_append_of_ne_type _ _ _ (by simp)
    apply mem_append_of_ne_type _ _ _ (by simp)
    apply mem_append_of_ne_type _ _ _ (by simp)
    apply mem_append_of_ne_type _ _ _ (by simp)
    exact append_expectation_self_mem _ _
  · rw [set_interactive_evaluation_suite]
    apply mem_append_of_ne_type _ _ _ (by simp)
    rw [set_interactive_evaluation_suite]
    apply mem_append_of_ne_type _ _ _ (by simp)
    apply mem_append_of_ne_type _ _ _ (by simp)
    apply mem_append_of_ne_type _ _ _ (by simp)
    exact append_expectation_self_mem _ _
  · rw [set_interactive_evaluation_suite]
    apply mem_append_of_ne_type _ _ _ (by simp)
    rw [set_interactive_evaluation_suite]
    apply mem_append_of_ne_type _ _ _ (by simp)
    exact append_expectation_self_mem _ _
  · rw [set_interactive_evaluation_suite]
    exact append_expectation_self_mem _ _

/-- Witness for C8 at a concrete dataset and column with observed min 0, max 9,
mean 4, median 5. -/
theorem numeric_column_ranges_contain_observed_witness :
    ∃ ds', _create_expectations_for_numeric_column sampleDataset "a" = .ok ds' ∧
      (({ expectation_type := "expect_column_min_to_be_between", column := some "a",
          min_value := some ((0 : ℚ) - 1), max_value := some ((0 : ℚ) + 1) } :
            Expectation) ∈
        ds'.suite_expectations ∧ (0 : ℚ) - 1 ≤ (0 : ℚ) ∧ (0 : ℚ) ≤ (0 : ℚ) + 1) ∧
      (({ expectation_type := "expect_column_max_to_be_between", column := some "a",
          min_value := some ((9 : ℚ) - 1), max_value := some ((9 : ℚ) + 1) } :
            Expectation) ∈
        ds'.suite_expectations ∧ (9 : ℚ) - 1 ≤ (9 : ℚ) ∧ (9 : ℚ) ≤ (9 : ℚ) + 1) ∧
      (({ expectation_type := "expect_column_mean_to_be_between", column := some "a",
          min_value := some ((4 : ℚ) - 1), max_value := some ((4 : ℚ) + 1) } :
            Expectation) ∈
        ds'.suite_expectations ∧ (4 : ℚ) - 1 ≤ (4 : ℚ) ∧ (4 : ℚ) ≤ (4 : ℚ) + 1) ∧
      (({ expectation_type := "expect_column_median_to_be_between", column := some "a",
          min_value := some ((5 : ℚ) - 1), max_value := some ((5 : ℚ) + 1) } :
            Expectation) ∈
        ds'.suite_expectations ∧ (5 : ℚ) - 1 ≤ (5 : ℚ) ∧ (5 : ℚ) ≤ (5 : ℚ) + 1) ∧
      (({ expectation_type := "expect_column_quantile_values_to_be_between",
          column := some "a",
          quantiles := some (sampleDataset.column_stats "a").observed_quantiles,
          value_ranges := some
            ((sampleDataset.column_stats "a").observed_quantile_values.map
              (fun v => (some (v - 1), some (v + 1)))) } : Expectation) ∈
        ds'.suite_expectations ∧
        ∀ v ∈ (sampleDataset.column_stats "a").observed_quantile_values,
          v - 1 ≤ v ∧ v ≤ v + 1) :=
  numeric_column_ranges_contain_observed sampleDataset "a" 0 9 4 5 rfl rfl rfl rfl rfl
